import Mathlib

/-!
Shallow embedding of the radio transmission state machine of
`src/Firmware/Drivers/Interfaces/position/position.h` (the `radio.c`
driver: `RADIO_Init`, `RADIO_Process`, `RADIO_SetFrame`, `RADIO_GetState`,
`Transmit10`, `SetReg`, `GetReg`, `DumpRegister`).

Modelling decisions:
* The serial bus is replaced by a trace of events: each `SetReg addr val`
  becomes a `RadioEvent.write addr val`, each `GetReg addr` a
  `RadioEvent.read addr`.  The status byte a `SetReg` returns and the value
  a `GetReg` reads are supplied by an environment `RadioEnv` (the simulated
  device).  Only the status of the FIFO-control write inside `Transmit10`
  and the value of the PLL-ranging read in `WAIT_AR` are ever inspected by
  the code, so the environment carries exactly those.
* `HAL_GetTick` is a single `now : Nat` per `Process` call (tick arithmetic
  is modelled on unbounded naturals; no claim concerns 32-bit wraparound).
* The frame buffer is a `List Nat` of bytes; `memcpy(frame, data, len)`
  becomes `data.take len ++ frame.drop len`.
* `RADIO_FRAME_LENGTH` is declared in `radio.h`, which is not among the
  source files; the buffer capacity is therefore an explicit parameter
  `cap` of `RADIO_SetFrame`.
-/

/-- Register addresses from the source (`ADDR_…`). -/
def ADDR_PWRMODE : Nat := 0x02
def ADDR_XTALOSC : Nat := 0x03
def ADDR_FIFOCTRL : Nat := 0x04
def ADDR_FIFODATA : Nat := 0x05
def ADDR_MODULATION : Nat := 0x10
def ADDR_ENCODING : Nat := 0x11
def ADDR_FRAMING : Nat := 0x12
def ADDR_FREQ3 : Nat := 0x20
def ADDR_FREQ2 : Nat := 0x21
def ADDR_FREQ1 : Nat := 0x22
def ADDR_FREQ0 : Nat := 0x23
def ADDR_FSKDEV2 : Nat := 0x25
def ADDR_FSKDEV1 : Nat := 0x26
def ADDR_FSKDEV0 : Nat := 0x27
def ADDR_PLLLOOP : Nat := 0x2C
def ADDR_PLLRANGING : Nat := 0x2D
def ADDR_TXPWR : Nat := 0x30
def ADDR_TXRATEHI : Nat := 0x31
def ADDR_TXRATEMID : Nat := 0x32
def ADDR_TXRATELO : Nat := 0x33

/-- Maximal register address dumped by `DumpRegister` (`MAX_ADDR`). -/
def MAX_ADDR : Nat := 0x50

/-- Configuration values from the source (`CONF_…`). -/
def CONF_XTALOSC : Nat := 0x18
def CONF_MODULATION : Nat := 0x06
def CONF_ENCODING : Nat := 0x00
def CONF_FRAMING : Nat := 0x00
def CONF_FREQ3 : Nat := 0x19
def CONF_FREQ2 : Nat := 0x60
def CONF_FREQ1 : Nat := 0xC8
def CONF_FREQ0 : Nat := 0xB5
def CONF_TXPWR : Nat := 0x0f
def CONF_TXRATEHI : Nat := 0x01
def CONF_TXRATEMID : Nat := 0x99
def CONF_TXRATELO : Nat := 0x9a
def CONF_PLLRANGING : Nat := 0x18
def CONF_PLLLOOP : Nat := 0x29
def CONF_FSKDEV2 : Nat := 0x00
def CONF_FSKDEV1 : Nat := 0x00
def CONF_FSKDEV0 : Nat := 0x00

/-- `MASK_PLLRANGING_START`: ranging-in-progress bit of the PLL-ranging register. -/
def MASK_PLLRANGING_START : Nat := 0x10
/-- `MASK_PLLRANGING_ERROR`: ranging-error bit of the PLL-ranging register. -/
def MASK_PLLRANGING_ERROR : Nat := 0x20

/-- `STATE_S3_FIFO_FULL`: FIFO-full flag of the status byte (bit 3). -/
def STATE_S3_FIFO_FULL : Nat := 8

/-- Power modes (`PWRMODE_…`). -/
def PWRMODE_STANDBY : Nat := 0x05
def PWRMODE_SYNTHTX : Nat := 0x0C
def PWRMODE_FULLTX : Nat := 0x0D

/-- `IQ_1`: the 10-bit line-code symbol sent for a nonzero data byte. -/
def IQ_1 : Nat := 0x369
/-- `IQ_0`: the 10-bit line-code symbol sent for a zero data byte. -/
def IQ_0 : Nat := 0x097

/-- `PREAMBLE_MSG`: the byte written to the FIFO while sending the preamble. -/
def PREAMBLE_MSG : Nat := 0x55

/-- Timing constants of the source. -/
def CONFIGURATION_DELAY : Nat := 5
def STARTUP_DELAY : Nat := 1
def PREAMBLE_DURATION : Nat := 160
def AR_INTERVAL : Nat := 5 * 60 * 1000

/-- The states of the `RADIO_State` enumeration. -/
inductive RADIO_State where
  | CONFIGURE
  | WAIT_CONF
  | IDLE
  | START_TX
  | WAIT_TX
  | WAIT_AR
  | PREAMBLE
  | FRAME
  | POSTAMBLE
deriving DecidableEq, Repr

/-- Modelled from the spec: the `RADIO_State` enumeration is declared in
`radio.h`, which is not among the provided source files.  The spec's state
table lists the states in this order beginning with CONFIGURE (the initial
state), and a C enumeration without explicit initializers numbers its
enumerators consecutively from 0. -/
def stateToNat : RADIO_State → Nat
  | .CONFIGURE => 0
  | .WAIT_CONF => 1
  | .IDLE => 2
  | .START_TX => 3
  | .WAIT_TX => 4
  | .WAIT_AR => 5
  | .PREAMBLE => 6
  | .FRAME => 7
  | .POSTAMBLE => 8

/-- One bus transaction as seen on the trace: `SetReg addr val` is
`write addr val`, `GetReg addr` is `read addr`. -/
inductive RadioEvent where
  | write (addr val : Nat)
  | read (addr : Nat)
deriving DecidableEq, Repr

/-- The mutable fields of `RADIO_Instance` (the `spi` bus handle is replaced
by the event trace).  `idx` is the overloaded cursor/deadline field, `len`
the frame length, `nextAR` the auto-ranging deadline `nextAR`. -/
structure RADIO_Instance where
  state : RADIO_State
  frame : List Nat
  len : Nat
  idx : Nat
  nextAR : Nat
deriving DecidableEq, Repr

/-- The simulated device for one `Process` call: `now` is `HAL_GetTick()`,
`statuses k` the status byte returned by the FIFO-control write of the
`k`-th `Transmit10` attempt of this call, `pllReg` the value read from the
PLL-ranging register. -/
structure RadioEnv where
  now : Nat
  statuses : Nat → Nat
  pllReg : Nat

/-- The line-code symbol selected for a data byte:
`(data == 0) ? IQ_0 : IQ_1`. -/
def iq (data : Nat) : Nat := if data = 0 then IQ_0 else IQ_1

/-- `Transmit10(inst, data)` given the status byte returned by the
FIFO-control write: always writes the symbol's upper bits to `ADDR_FIFOCTRL`;
if the FIFO-full flag of the returned status is clear, writes the lower 8
bits to `ADDR_FIFODATA` and returns success. -/
def Transmit10 (data : Nat) (status : Nat) : Bool × List RadioEvent :=
  let tx := iq data
  let hi := RadioEvent.write ADDR_FIFOCTRL (tx >>> 8)
  if status &&& STATE_S3_FIFO_FULL = 0 then
    (true, [hi, RadioEvent.write ADDR_FIFODATA (tx &&& 0xFF)])
  else
    (false, [hi])

/-- The `while (idx < len && Transmit10(inst, frame[idx])) idx++;` loop of
the `FRAME` state, with explicit fuel.  Fuel `len - idx` is exact: every
recursive step increments `idx`, and at `fuel = 0` we have `idx = len`,
where the loop guard fails anyway.  Returns the final `idx` and the emitted
events. -/
def frameLoopF (frame : List Nat) (len : Nat) :
    (Nat → Nat) → Nat → Nat → Nat × List RadioEvent
  | _, idx, 0 => (idx, [])
  | st, idx, fuel + 1 =>
    if idx < len then
      let p := Transmit10 (frame.getD idx 0) (st 0)
      if p.1 then
        let r := frameLoopF frame len (fun k => st (k + 1)) (idx + 1) fuel
        (r.1, p.2 ++ r.2)
      else
        (idx, p.2)
    else
      (idx, [])

/-- The `FRAME`-state transmit loop starting at `idx`. -/
def frameLoop (frame : List Nat) (len idx : Nat) (st : Nat → Nat) :
    Nat × List RadioEvent :=
  frameLoopF frame len st idx (len - idx)

/-- The 17 configuration register writes of the `CONFIGURE` state, in
source order. -/
def configWrites : List RadioEvent :=
  [ RadioEvent.write ADDR_PWRMODE PWRMODE_STANDBY,
    RadioEvent.write ADDR_XTALOSC CONF_XTALOSC,
    RadioEvent.write ADDR_PLLLOOP CONF_PLLLOOP,
    RadioEvent.write ADDR_FREQ3 CONF_FREQ3,
    RadioEvent.write ADDR_FREQ2 CONF_FREQ2,
    RadioEvent.write ADDR_FREQ1 CONF_FREQ1,
    RadioEvent.write ADDR_FREQ0 CONF_FREQ0,
    RadioEvent.write ADDR_TXPWR CONF_TXPWR,
    RadioEvent.write ADDR_FSKDEV2 CONF_FSKDEV2,
    RadioEvent.write ADDR_FSKDEV1 CONF_FSKDEV1,
    RadioEvent.write ADDR_FSKDEV0 CONF_FSKDEV0,
    RadioEvent.write ADDR_TXRATEHI CONF_TXRATEHI,
    RadioEvent.write ADDR_TXRATEMID CONF_TXRATEMID,
    RadioEvent.write ADDR_TXRATELO CONF_TXRATELO,
    RadioEvent.write ADDR_MODULATION CONF_MODULATION,
    RadioEvent.write ADDR_ENCODING CONF_ENCODING,
    RadioEvent.write ADDR_FRAMING CONF_FRAMING ]

/-- `DumpRegister`: reads registers `0 … MAX_ADDR` in order. -/
def dumpTrace : List RadioEvent :=
  (List.range (MAX_ADDR + 1)).map RadioEvent.read

/-- `RADIO_Process` on a non-null instance: one poll of the state machine.
Returns the updated instance and the trace of bus transactions of this
call, both exactly as in the source switch statement. -/
def RADIO_Process (inst : RADIO_Instance) (env : RadioEnv) :
    RADIO_Instance × List RadioEvent :=
  match inst.state with
  | .CONFIGURE =>
      ({ inst with
          idx := env.now + CONFIGURATION_DELAY,
          nextAR := 0,
          state := .WAIT_CONF },
       configWrites ++ dumpTrace)
  | .WAIT_CONF =>
      if inst.idx < env.now then
        ({ inst with state := .IDLE }, [])
      else
        (inst, [])
  | .IDLE => (inst, [])
  | .START_TX =>
      ({ inst with idx := env.now + STARTUP_DELAY, state := .WAIT_TX },
       [RadioEvent.write ADDR_PWRMODE PWRMODE_SYNTHTX])
  | .WAIT_TX =>
      if inst.idx < env.now then
        if inst.nextAR < env.now then
          ({ inst with idx := env.now + PREAMBLE_DURATION, state := .PREAMBLE },
           [RadioEvent.write ADDR_PWRMODE PWRMODE_FULLTX])
        else
          ({ inst with state := .WAIT_AR },
           [RadioEvent.write ADDR_PLLRANGING CONF_PLLRANGING])
      else
        (inst, [])
  | .WAIT_AR =>
      if env.pllReg &&& MASK_PLLRANGING_ERROR ≠ 0 then
        ({ inst with state := .CONFIGURE }, [RadioEvent.read ADDR_PLLRANGING])
      else if env.pllReg &&& MASK_PLLRANGING_START = 0 then
        ({ inst with
            state := .PREAMBLE,
            nextAR := env.now + AR_INTERVAL,
            idx := env.now + PREAMBLE_DURATION },
         [RadioEvent.read ADDR_PLLRANGING,
          RadioEvent.write ADDR_PWRMODE PWRMODE_FULLTX])
      else
        (inst, [RadioEvent.read ADDR_PLLRANGING])
  | .PREAMBLE =>
      if env.now < inst.idx then
        (inst, [RadioEvent.write ADDR_FIFODATA PREAMBLE_MSG])
      else
        ({ inst with idx := 0, state := .FRAME }, [])
  | .FRAME =>
      if inst.len ≤ inst.idx then
        ({ inst with state := .POSTAMBLE, idx := 0 }, [])
      else
        let r := frameLoop inst.frame inst.len inst.idx env.statuses
        ({ inst with idx := r.1 }, r.2)
  | .POSTAMBLE =>
      let p := Transmit10 0 (env.statuses 0)
      if inst.idx = 0 then
        ({ inst with idx := inst.idx + 1 }, p.2)
      else
        ({ inst with state := .IDLE, idx := 0 },
         p.2 ++ [RadioEvent.write ADDR_PWRMODE PWRMODE_STANDBY])

/-- `RADIO_SetFrame` on a non-null instance; a null `data` pointer is
`none`, `cap` is `RADIO_FRAME_LENGTH`.  `memcpy(inst->frame, data, len)`
into the fixed buffer is `data.take len ++ inst.frame.drop len`. -/
def RADIO_SetFrame (cap : Nat) (inst : RADIO_Instance)
    (data : Option (List Nat)) (len : Nat) : RADIO_Instance :=
  match data with
  | none => inst
  | some d =>
    if inst.state = RADIO_State.IDLE ∧ len ≠ 0 ∧ len < cap then
      { inst with
          frame := d.take len ++ inst.frame.drop len,
          len := len,
          idx := 0,
          state := RADIO_State.START_TX }
    else
      inst

/-- `RADIO_SetFrame` including the null-instance guard. -/
def RADIO_SetFrameN (cap : Nat) (inst : Option RADIO_Instance)
    (data : Option (List Nat)) (len : Nat) : Option RADIO_Instance :=
  match inst with
  | none => none
  | some i => some (RADIO_SetFrame cap i data len)

/-- `RADIO_GetState`: the numeric value the caller receives, `0` for a null
instance and the state's enumeration value otherwise. -/
def RADIO_GetState : Option RADIO_Instance → Nat
  | none => 0
  | some i => stateToNat i.state

/-- `RADIO_Init` on a non-null instance with a non-null bus handle: resets
`idx`, `len` and the state; `nextAR` is left untouched (the C struct field
stays uninitialized until the CONFIGURE state first runs). -/
def RADIO_Init (inst : RADIO_Instance) : RADIO_Instance :=
  { inst with idx := 0, len := 0, state := RADIO_State.CONFIGURE }

/-- Repeated polling: run `RADIO_Process` once per environment in the list,
concatenating the traces. -/
def runProcess : RADIO_Instance → List RadioEnv → RADIO_Instance × List RadioEvent
  | inst, [] => (inst, [])
  | inst, e :: es =>
      let r := RADIO_Process inst e
      let s := runProcess r.1 es
      (s.1, r.2 ++ s.2)

/-- The two FIFO writes of one accepted `Transmit10` of byte `b`. -/
def symWrites (b : Nat) : List RadioEvent :=
  [ RadioEvent.write ADDR_FIFOCTRL (iq b >>> 8),
    RadioEvent.write ADDR_FIFODATA (iq b &&& 0xFF) ]

/-- The accepted-symbol writes of a list of bytes, in order. -/
def symSeq : List Nat → List RadioEvent
  | [] => []
  | b :: bs => symWrites b ++ symSeq bs

/-- The accepted-symbol writes of `n` buffer bytes starting at index `idx`. -/
def symSeqIdx (frame : List Nat) : Nat → Nat → List RadioEvent
  | _, 0 => []
  | idx, n + 1 => symWrites (frame.getD idx 0) ++ symSeqIdx frame (idx + 1) n

/-- Number of writes to the FIFO-control register in a trace: every symbol
pushed through `Transmit10` produces exactly one such write. -/
def countCtrl (tr : List RadioEvent) : Nat :=
  tr.countP (fun e => match e with
    | RadioEvent.write a _ => a == ADDR_FIFOCTRL
    | RadioEvent.read _ => false)

/-! ## Basic step characterizations -/

/-- In CONFIGURE, `Process` performs the fixed write sequence, arms the
configuration delay, forces `nextAR = 0` and moves to WAIT_CONF. -/
theorem step_CONFIGURE (inst : RADIO_Instance) (env : RadioEnv)
    (h : inst.state = RADIO_State.CONFIGURE) :
    RADIO_Process inst env =
      ({ inst with idx := env.now + CONFIGURATION_DELAY, nextAR := 0,
                   state := RADIO_State.WAIT_CONF },
       configWrites ++ dumpTrace) := by
  unfold RADIO_Process
  rw [h]

/-- In START_TX, `Process` writes the synth-tx power mode, arms the startup
delay and moves to WAIT_TX. -/
theorem step_START_TX (inst : RADIO_Instance) (env : RadioEnv)
    (h : inst.state = RADIO_State.START_TX) :
    RADIO_Process inst env =
      ({ inst with idx := env.now + STARTUP_DELAY, state := RADIO_State.WAIT_TX },
       [RadioEvent.write ADDR_PWRMODE PWRMODE_SYNTHTX]) := by
  unfold RADIO_Process
  rw [h]

/-- In WAIT_TX before the startup deadline, nothing happens. -/
theorem step_WAIT_TX_wait (inst : RADIO_Instance) (env : RadioEnv)
    (h : inst.state = RADIO_State.WAIT_TX) (hn : env.now ≤ inst.idx) :
    RADIO_Process inst env = (inst, []) := by
  simp [RADIO_Process, h, Nat.not_lt.mpr hn]

/-- In WAIT_TX past the startup deadline with the auto-range deadline also
passed, `Process` writes full-tx power, arms the preamble deadline and moves
to PREAMBLE. -/
theorem step_WAIT_TX_tx (inst : RADIO_Instance) (env : RadioEnv)
    (h : inst.state = RADIO_State.WAIT_TX) (hn : inst.idx < env.now)
    (har : inst.nextAR < env.now) :
    RADIO_Process inst env =
      ({ inst with idx := env.now + PREAMBLE_DURATION, state := RADIO_State.PREAMBLE },
       [RadioEvent.write ADDR_PWRMODE PWRMODE_FULLTX]) := by
  simp [RADIO_Process, h, hn, har]

/-- In WAIT_TX past the startup deadline but at or before the auto-range
deadline, `Process` writes the ranging command and moves to WAIT_AR. -/
theorem step_WAIT_TX_ar (inst : RADIO_Instance) (env : RadioEnv)
    (h : inst.state = RADIO_State.WAIT_TX) (hn : inst.idx < env.now)
    (har : env.now ≤ inst.nextAR) :
    RADIO_Process inst env =
      ({ inst with state := RADIO_State.WAIT_AR },
       [RadioEvent.write ADDR_PLLRANGING CONF_PLLRANGING]) := by
  simp [RADIO_Process, h, hn, Nat.not_lt.mpr har]

/-- In PREAMBLE before the deadline, `Process` writes the preamble byte
directly to the FIFO-data register and changes nothing else. -/
theorem step_PREAMBLE_send (inst : RADIO_Instance) (env : RadioEnv)
    (h : inst.state = RADIO_State.PREAMBLE) (hn : env.now < inst.idx) :
    RADIO_Process inst env =
      (inst, [RadioEvent.write ADDR_FIFODATA PREAMBLE_MSG]) := by
  simp [RADIO_Process, h, hn]

/-- In PREAMBLE at or past the deadline, `Process` resets the cursor and
moves to FRAME. -/
theorem step_PREAMBLE_done (inst : RADIO_Instance) (env : RadioEnv)
    (h : inst.state = RADIO_State.PREAMBLE) (hn : inst.idx ≤ env.now) :
    RADIO_Process inst env =
      ({ inst with idx := 0, state := RADIO_State.FRAME }, []) := by
  simp [RADIO_Process, h, Nat.not_lt.mpr hn]

/-- In FRAME with the cursor at or past the frame length, `Process` resets
the cursor and moves to POSTAMBLE without bus traffic. -/
theorem step_FRAME_done (inst : RADIO_Instance) (env : RadioEnv)
    (h : inst.state = RADIO_State.FRAME) (hn : inst.len ≤ inst.idx) :
    RADIO_Process inst env =
      ({ inst with state := RADIO_State.POSTAMBLE, idx := 0 }, []) := by
  simp [RADIO_Process, h, hn]

/-- In FRAME with bytes remaining, `Process` runs the transmit loop. -/
theorem step_FRAME_go (inst : RADIO_Instance) (env : RadioEnv)
    (h : inst.state = RADIO_State.FRAME) (hn : inst.idx < inst.len) :
    RADIO_Process inst env =
      ({ inst with idx := (frameLoop inst.frame inst.len inst.idx env.statuses).1 },
       (frameLoop inst.frame inst.len inst.idx env.statuses).2) := by
  simp [RADIO_Process, h, Nat.not_le.mpr hn]

/-- First POSTAMBLE tick: push the zero symbol, advance the cursor. -/
theorem step_POST1 (inst : RADIO_Instance) (env : RadioEnv)
    (h : inst.state = RADIO_State.POSTAMBLE) (hi : inst.idx = 0) :
    RADIO_Process inst env =
      ({ inst with idx := inst.idx + 1 }, (Transmit10 0 (env.statuses 0)).2) := by
  simp [RADIO_Process, h, hi]

/-- Second POSTAMBLE tick: push the zero symbol again, write standby power
mode, return to IDLE. -/
theorem step_POST2 (inst : RADIO_Instance) (env : RadioEnv)
    (h : inst.state = RADIO_State.POSTAMBLE) (hi : inst.idx ≠ 0) :
    RADIO_Process inst env =
      ({ inst with state := RADIO_State.IDLE, idx := 0 },
       (Transmit10 0 (env.statuses 0)).2 ++
         [RadioEvent.write ADDR_PWRMODE PWRMODE_STANDBY]) := by
  simp [RADIO_Process, h, hi]

/-- In IDLE, `Process` does nothing. -/
theorem step_IDLE (inst : RADIO_Instance) (env : RadioEnv)
    (h : inst.state = RADIO_State.IDLE) :
    RADIO_Process inst env = (inst, []) := by
  simp [RADIO_Process, h]

/-- In WAIT_CONF past the configuration deadline, `Process` moves to IDLE. -/
theorem step_WAIT_CONF_done (inst : RADIO_Instance) (env : RadioEnv)
    (h : inst.state = RADIO_State.WAIT_CONF) (hn : inst.idx < env.now) :
    RADIO_Process inst env = ({ inst with state := RADIO_State.IDLE }, []) := by
  simp [RADIO_Process, h, hn]

/-- In WAIT_AR with the ranging-error bit set, `Process` falls back to
CONFIGURE. -/
theorem step_WAIT_AR_err (inst : RADIO_Instance) (env : RadioEnv)
    (h : inst.state = RADIO_State.WAIT_AR)
    (he : env.pllReg &&& MASK_PLLRANGING_ERROR ≠ 0) :
    RADIO_Process inst env =
      ({ inst with state := RADIO_State.CONFIGURE },
       [RadioEvent.read ADDR_PLLRANGING]) := by
  simp [RADIO_Process, h, he]

/-- In WAIT_AR with no error and ranging finished, `Process` writes full-tx
power, re-arms the auto-range and preamble deadlines and moves to PREAMBLE. -/
theorem step_WAIT_AR_done (inst : RADIO_Instance) (env : RadioEnv)
    (h : inst.state = RADIO_State.WAIT_AR)
    (he : env.pllReg &&& MASK_PLLRANGING_ERROR = 0)
    (hs : env.pllReg &&& MASK_PLLRANGING_START = 0) :
    RADIO_Process inst env =
      ({ inst with state := RADIO_State.PREAMBLE,
                   nextAR := env.now + AR_INTERVAL,
                   idx := env.now + PREAMBLE_DURATION },
       [RadioEvent.read ADDR_PLLRANGING,
        RadioEvent.write ADDR_PWRMODE PWRMODE_FULLTX]) := by
  simp [RADIO_Process, h, he, hs]

/-- In WAIT_AR with no error and ranging still in progress, `Process` only
polls the register. -/
theorem step_WAIT_AR_busy (inst : RADIO_Instance) (env : RadioEnv)
    (h : inst.state = RADIO_State.WAIT_AR)
    (he : env.pllReg &&& MASK_PLLRANGING_ERROR = 0)
    (hs : env.pllReg &&& MASK_PLLRANGING_START ≠ 0) :
    RADIO_Process inst env = (inst, [RadioEvent.read ADDR_PLLRANGING]) := by
  simp [RADIO_Process, h, he, hs]

/-! ## Claims -/

/-- C10: `RADIO_GetState` returns 0 for a null instance, which is exactly the
numeric value of the CONFIGURE state, so a caller cannot distinguish a null
instance from a configuring one; for a non-null instance it returns the
current state unmodified. -/
theorem radio_C10 :
    RADIO_GetState none = 0 ∧
    RADIO_GetState none = stateToNat RADIO_State.CONFIGURE ∧
    ∀ i : RADIO_Instance, RADIO_GetState (some i) = stateToNat i.state :=
  ⟨rfl, rfl, fun _ => rfl⟩

/-- C5: `Transmit10` maps byte 0 and byte 1 to two distinct fixed 10-bit
symbols, always writes the symbol's high byte to the FIFO-control register
first, and writes the low byte to the FIFO-data register and accepts exactly
when the FIFO-full flag of the returned status byte is clear. -/
theorem radio_C5 :
    IQ_0 ≠ IQ_1 ∧ IQ_0 < 2 ^ 10 ∧ IQ_1 < 2 ^ 10 ∧
    ∀ status : Nat,
      ((Transmit10 0 status).2.take 1 =
          [RadioEvent.write ADDR_FIFOCTRL (IQ_0 >>> 8)] ∧
       (Transmit10 1 status).2.take 1 =
          [RadioEvent.write ADDR_FIFOCTRL (IQ_1 >>> 8)]) ∧
      (status &&& STATE_S3_FIFO_FULL = 0 →
        Transmit10 0 status =
          (true, [RadioEvent.write ADDR_FIFOCTRL (IQ_0 >>> 8),
                  RadioEvent.write ADDR_FIFODATA (IQ_0 &&& 0xFF)]) ∧
        Transmit10 1 status =
          (true, [RadioEvent.write ADDR_FIFOCTRL (IQ_1 >>> 8),
                  RadioEvent.write ADDR_FIFODATA (IQ_1 &&& 0xFF)])) ∧
      (status &&& STATE_S3_FIFO_FULL ≠ 0 →
        Transmit10 0 status =
          (false, [RadioEvent.write ADDR_FIFOCTRL (IQ_0 >>> 8)]) ∧
        Transmit10 1 status =
          (false, [RadioEvent.write ADDR_FIFOCTRL (IQ_1 >>> 8)])) := by
  refine ⟨by decide, by decide, by decide, fun status => ?_⟩
  by_cases h : status &&& STATE_S3_FIFO_FULL = 0 <;>
    simp [Transmit10, iq, h]

/-- C5 witness: the characterization evaluated at status bytes 0 (FIFO not
full) and 8 (FIFO full). -/
theorem radio_C5_witness :
    Transmit10 1 0 =
      (true, [RadioEvent.write ADDR_FIFOCTRL (IQ_1 >>> 8),
              RadioEvent.write ADDR_FIFODATA (IQ_1 &&& 0xFF)]) ∧
    Transmit10 1 8 =
      (false, [RadioEvent.write ADDR_FIFOCTRL (IQ_1 >>> 8)]) :=
  ⟨((radio_C5.2.2.2 0).2.1 (by decide)).2, ((radio_C5.2.2.2 8).2.2 (by decide)).2⟩

/-- C4: `SetFrame` changes the instance iff the state is IDLE, the data
pointer is non-null and `0 < len < cap`; in that case it copies `len` bytes
into the frame buffer, sets the length, resets the cursor and moves to
START_TX; in every other case (null instance, null data, bad length, busy
state) every field is left unchanged. -/
theorem radio_C4 :
    ∀ (cap : Nat) (inst : RADIO_Instance) (data : List Nat) (len : Nat),
      RADIO_SetFrameN cap none (some data) len = none ∧
      RADIO_SetFrame cap inst none len = inst ∧
      ((inst.state = RADIO_State.IDLE ∧ len ≠ 0 ∧ len < cap) →
        RADIO_SetFrame cap inst (some data) len =
          { inst with
              frame := data.take len ++ inst.frame.drop len,
              len := len, idx := 0, state := RADIO_State.START_TX } ∧
        RADIO_SetFrame cap inst (some data) len ≠ inst) ∧
      (¬(inst.state = RADIO_State.IDLE ∧ len ≠ 0 ∧ len < cap) →
        RADIO_SetFrame cap inst (some data) len = inst) := by
  intro cap inst data len
  refine ⟨rfl, rfl, fun h => ?_, fun h => by simp [RADIO_SetFrame, h]⟩
  have hupd : RADIO_SetFrame cap inst (some data) len =
      { inst with
          frame := data.take len ++ inst.frame.drop len,
          len := len, idx := 0, state := RADIO_State.START_TX } := by
    simp [RADIO_SetFrame, h.1, h.2.1, h.2.2]
  refine ⟨hupd, ?_⟩
  rw [hupd]
  intro heq
  have hc := congrArg RADIO_Instance.state heq
  simp [h.1] at hc

/-- C4 witness: an accepted call from IDLE and a rejected call from a busy
state, at concrete inputs. -/
theorem radio_C4_witness :
    RADIO_SetFrame 4 ⟨RADIO_State.IDLE, [9, 9, 9], 0, 7, 3⟩ (some [1, 2]) 2 =
      ⟨RADIO_State.START_TX, [1, 2, 9], 2, 0, 3⟩ ∧
    RADIO_SetFrame 4 ⟨RADIO_State.FRAME, [9, 9, 9], 0, 7, 3⟩ (some [1, 2]) 2 =
      ⟨RADIO_State.FRAME, [9, 9, 9], 0, 7, 3⟩ :=
  ⟨((radio_C4 4 ⟨RADIO_State.IDLE, [9, 9, 9], 0, 7, 3⟩ [1, 2] 2).2.2.1
      ⟨rfl, by decide, by decide⟩).1,
   (radio_C4 4 ⟨RADIO_State.FRAME, [9, 9, 9], 0, 7, 3⟩ [1, 2] 2).2.2.2
      (by decide)⟩

/-- C2: in WAIT_TX, a `Process` call past the startup deadline but at or
before the auto-range deadline writes the ranging-start command (whose value
has the ranging-start bit set) and moves to WAIT_AR; past both deadlines it
writes full-tx power, arms the shared cursor/deadline field with
`now + PREAMBLE_DURATION` and moves to PREAMBLE; at or before the startup
deadline nothing changes. -/
theorem radio_C2 :
    ∀ (inst : RADIO_Instance) (env : RadioEnv),
      inst.state = RADIO_State.WAIT_TX →
      (env.now ≤ inst.idx → RADIO_Process inst env = (inst, [])) ∧
      (inst.idx < env.now → env.now ≤ inst.nextAR →
        RADIO_Process inst env =
          ({ inst with state := RADIO_State.WAIT_AR },
           [RadioEvent.write ADDR_PLLRANGING CONF_PLLRANGING])) ∧
      (inst.idx < env.now → inst.nextAR < env.now →
        RADIO_Process inst env =
          ({ inst with idx := env.now + PREAMBLE_DURATION,
                       state := RADIO_State.PREAMBLE },
           [RadioEvent.write ADDR_PWRMODE PWRMODE_FULLTX])) ∧
      CONF_PLLRANGING &&& MASK_PLLRANGING_START ≠ 0 :=
  fun inst env h =>
    ⟨fun h1 => step_WAIT_TX_wait inst env h h1,
     fun h1 h2 => step_WAIT_TX_ar inst env h h1 h2,
     fun h1 h2 => step_WAIT_TX_tx inst env h h1 h2,
     by decide⟩

/-- C2 witness: the ranging branch taken at a concrete instance and tick. -/
theorem radio_C2_witness :
    RADIO_Process ⟨RADIO_State.WAIT_TX, [], 0, 5, 10⟩ ⟨7, fun _ => 0, 0⟩ =
      (⟨RADIO_State.WAIT_AR, [], 0, 5, 10⟩,
       [RadioEvent.write ADDR_PLLRANGING CONF_PLLRANGING]) :=
  (radio_C2 ⟨RADIO_State.WAIT_TX, [], 0, 5, 10⟩ ⟨7, fun _ => 0, 0⟩ rfl).2.1
    (by decide) (by decide)

/-- C8: every `Process` call in CONFIGURE performs the same fixed sequence
of register accesses — the 17 configuration writes followed by the register
dump — independent of every instance field and of how CONFIGURE was entered;
in particular two CONFIGURE entries (boot or ranging-failure recovery)
produce identical traces. -/
theorem radio_C8 :
    (∀ (inst : RADIO_Instance) (env : RadioEnv),
      inst.state = RADIO_State.CONFIGURE →
      RADIO_Process inst env =
        ({ inst with idx := env.now + CONFIGURATION_DELAY, nextAR := 0,
                     state := RADIO_State.WAIT_CONF },
         configWrites ++ dumpTrace)) ∧
    (∀ (i1 i2 : RADIO_Instance) (e1 e2 : RadioEnv),
      i1.state = RADIO_State.CONFIGURE → i2.state = RADIO_State.CONFIGURE →
      (RADIO_Process i1 e1).2 = (RADIO_Process i2 e2).2) := by
  refine ⟨fun inst env h => step_CONFIGURE inst env h, ?_⟩
  intro i1 i2 e1 e2 h1 h2
  rw [step_CONFIGURE i1 e1 h1, step_CONFIGURE i2 e2 h2]

/-- C8 witness: a boot-time CONFIGURE instance and a recovery-time CONFIGURE
instance with different fields produce the same trace. -/
theorem radio_C8_witness :
    (RADIO_Process ⟨RADIO_State.CONFIGURE, [], 0, 0, 0⟩ ⟨0, fun _ => 0, 0⟩).2 =
    (RADIO_Process ⟨RADIO_State.CONFIGURE, [7, 7], 2, 99, 55⟩
        ⟨123, fun _ => 8, 32⟩).2 :=
  radio_C8.2 ⟨RADIO_State.CONFIGURE, [], 0, 0, 0⟩
    ⟨RADIO_State.CONFIGURE, [7, 7], 2, 99, 55⟩
    ⟨0, fun _ => 0, 0⟩ ⟨123, fun _ => 8, 32⟩ rfl rfl

/-- C9 counterexample: in PREAMBLE before the deadline, one `Process` call
emits exactly one raw write of the preamble byte to the FIFO-data register
and zero writes to the FIFO-control register, whereas pushing the byte
through the symbol encoder as 8 symbol attempts would write the FIFO-control
register on every attempt. -/
theorem radio_C9_cex :
    RADIO_Process ⟨RADIO_State.PREAMBLE, [], 0, 100, 0⟩ ⟨5, fun _ => 0, 0⟩ =
      (⟨RADIO_State.PREAMBLE, [], 0, 100, 0⟩,
       [RadioEvent.write ADDR_FIFODATA PREAMBLE_MSG]) ∧
    countCtrl (RADIO_Process ⟨RADIO_State.PREAMBLE, [], 0, 100, 0⟩
        ⟨5, fun _ => 0, 0⟩).2 = 0 ∧
    (0 : Nat) ≠ 8 :=
  ⟨by decide, by decide, by decide⟩

/-- C9 (amended): in PREAMBLE, on every `Process` call before the deadline
the fixed preamble byte is written directly to the FIFO-data register — a
single raw register write, not through the symbol encoder and without any
back-pressure check; once the deadline has passed, the cursor is reset to 0
and the state becomes FRAME. -/
theorem radio_C9 :
    ∀ (inst : RADIO_Instance) (env : RadioEnv),
      inst.state = RADIO_State.PREAMBLE →
      (env.now < inst.idx →
        RADIO_Process inst env =
          (inst, [RadioEvent.write ADDR_FIFODATA PREAMBLE_MSG]) ∧
        countCtrl (RADIO_Process inst env).2 = 0) ∧
      (inst.idx ≤ env.now →
        RADIO_Process inst env =
          ({ inst with idx := 0, state := RADIO_State.FRAME }, [])) := by
  intro inst env h
  refine ⟨fun h1 => ?_, fun h1 => step_PREAMBLE_done inst env h h1⟩
  have hs := step_PREAMBLE_send inst env h h1
  exact ⟨hs, by rw [hs]; rfl⟩

/-- C9 witness: the amended behaviour at a concrete instance and tick. -/
theorem radio_C9_witness :
    RADIO_Process ⟨RADIO_State.PREAMBLE, [], 0, 100, 0⟩ ⟨99, fun _ => 0, 0⟩ =
      (⟨RADIO_State.PREAMBLE, [], 0, 100, 0⟩,
       [RadioEvent.write ADDR_FIFODATA PREAMBLE_MSG]) :=
  ((radio_C9 ⟨RADIO_State.PREAMBLE, [], 0, 100, 0⟩ ⟨99, fun _ => 0, 0⟩ rfl).1
    (by decide)).1

/-- C1 (the code contradicts it): with `nextAR = 0` — the value CONFIGURE
forces — a WAIT_TX poll past the startup deadline goes straight to PREAMBLE,
and WAIT_AR can never be entered, because the code takes the ranging branch
only when `now ≤ nextAR`.  The first transmission after CONFIGURE therefore
skips auto-ranging, the opposite of the claim. -/
theorem radio_C1_bug :
    (RADIO_Process ⟨RADIO_State.WAIT_TX, [1], 1, 2, 0⟩
        ⟨3, fun _ => 0, 0⟩).1.state = RADIO_State.PREAMBLE ∧
    ∀ (inst : RADIO_Instance) (env : RadioEnv),
      inst.state = RADIO_State.WAIT_TX → inst.nextAR = 0 →
      (RADIO_Process inst env).1.state ≠ RADIO_State.WAIT_AR := by
  refine ⟨by decide, ?_⟩
  intro inst env h h0
  by_cases h1 : inst.idx < env.now
  · rw [step_WAIT_TX_tx inst env h h1 (by omega)]
    simp
  · rw [step_WAIT_TX_wait inst env h (by omega)]
    simp [h]

/-- C7: in WAIT_AR, `Process` reads the PLL-ranging register; error flag set
moves to CONFIGURE with no further transmission activity; otherwise, ranging
finished writes full-tx power, re-arms `nextAR = now + AR_INTERVAL` and the
preamble deadline and moves to PREAMBLE; ranging still in progress changes
nothing.  Moreover the ranging error is the only path into CONFIGURE: from
any state, a `Process` call ends in CONFIGURE exactly when it started in
WAIT_AR with the error flag set. -/
theorem radio_C7 :
    (∀ (inst : RADIO_Instance) (env : RadioEnv),
      inst.state = RADIO_State.WAIT_AR →
      (env.pllReg &&& MASK_PLLRANGING_ERROR ≠ 0 →
        RADIO_Process inst env =
          ({ inst with state := RADIO_State.CONFIGURE },
           [RadioEvent.read ADDR_PLLRANGING])) ∧
      (env.pllReg &&& MASK_PLLRANGING_ERROR = 0 →
       env.pllReg &&& MASK_PLLRANGING_START = 0 →
        RADIO_Process inst env =
          ({ inst with state := RADIO_State.PREAMBLE,
                       nextAR := env.now + AR_INTERVAL,
                       idx := env.now + PREAMBLE_DURATION },
           [RadioEvent.read ADDR_PLLRANGING,
            RadioEvent.write ADDR_PWRMODE PWRMODE_FULLTX])) ∧
      (env.pllReg &&& MASK_PLLRANGING_ERROR = 0 →
       env.pllReg &&& MASK_PLLRANGING_START ≠ 0 →
        RADIO_Process inst env = (inst, [RadioEvent.read ADDR_PLLRANGING]))) ∧
    (∀ (inst : RADIO_Instance) (env : RadioEnv),
      (RADIO_Process inst env).1.state = RADIO_State.CONFIGURE ↔
        inst.state = RADIO_State.WAIT_AR ∧
        env.pllReg &&& MASK_PLLRANGING_ERROR ≠ 0) := by
  constructor
  · intro inst env h
    exact ⟨fun he => step_WAIT_AR_err inst env h he,
           fun he hs => step_WAIT_AR_done inst env h he hs,
           fun he hs => step_WAIT_AR_busy inst env h he hs⟩
  · intro inst env
    obtain ⟨s, f, l, i, n⟩ := inst
    cases s <;> simp [RADIO_Process] <;> split_ifs <;> simp_all

/-- C7 witness: the error branch at a concrete instance and register value
(error bit 0x20 set). -/
theorem radio_C7_witness :
    RADIO_Process ⟨RADIO_State.WAIT_AR, [], 0, 5, 10⟩ ⟨7, fun _ => 0, 0x20⟩ =
      (⟨RADIO_State.CONFIGURE, [], 0, 5, 10⟩,
       [RadioEvent.read ADDR_PLLRANGING]) :=
  (radio_C7.1 ⟨RADIO_State.WAIT_AR, [], 0, 5, 10⟩ ⟨7, fun _ => 0, 0x20⟩ rfl).1
    (by decide)

/-- Characterization of the FRAME transmit loop: some number `a` of leading
attempts are accepted (cursor advances by exactly `a`, their two-write symbol
traces are emitted in byte order), and if the frame is not exhausted the
attempt after them was rejected by the FIFO-full flag and emitted only its
high-byte write. -/
theorem frameLoopF_char :
    ∀ (fuel : Nat) (frame : List Nat) (len idx : Nat) (st : Nat → Nat),
      idx ≤ len → len ≤ idx + fuel →
      ∃ a : Nat,
        idx + a ≤ len ∧
        frameLoopF frame len st idx fuel =
          (idx + a,
           symSeqIdx frame idx a ++
             (if idx + a < len then
                [RadioEvent.write ADDR_FIFOCTRL (iq (frame.getD (idx + a) 0) >>> 8)]
              else [])) ∧
        (∀ k, k < a → st k &&& STATE_S3_FIFO_FULL = 0) ∧
        (idx + a < len → st a &&& STATE_S3_FIFO_FULL ≠ 0) := by
  intro fuel
  induction fuel with
  | zero =>
    intro frame len idx st h1 h2
    have hid : idx = len := by omega
    refine ⟨0, by omega, ?_, fun k hk => by omega, fun hlt => by omega⟩
    simp [frameLoopF, symSeqIdx, hid]
  | succ fuel ih =>
    intro frame len idx st h1 h2
    by_cases hlt : idx < len
    · by_cases hful : st 0 &&& STATE_S3_FIFO_FULL = 0
      · obtain ⟨a, ha1, ha2, ha3, ha4⟩ :=
          ih frame len (idx + 1) (fun k => st (k + 1)) (by omega) (by omega)
        have htxT : ∀ d : Nat, Transmit10 d (st 0) = (true, symWrites d) :=
          fun d => by simp [Transmit10, symWrites, hful]
        refine ⟨a + 1, by omega, ?_, ?_, ?_⟩
        · have he1 : idx + 1 + a = idx + (a + 1) := by omega
          rw [frameLoopF, if_pos hlt]
          simp only [htxT]
          simp [ha2, symSeqIdx, he1, List.append_assoc]
        · intro k hk
          cases k with
          | zero => exact hful
          | succ k' => exact ha3 k' (by omega)
        · intro hlt2
          exact ha4 (by omega)
      · have htxF : ∀ d : Nat, Transmit10 d (st 0) =
            (false, [RadioEvent.write ADDR_FIFOCTRL (iq d >>> 8)]) :=
          fun d => by simp [Transmit10, hful]
        refine ⟨0, by omega, ?_, fun k hk => by omega, fun _ => hful⟩
        rw [frameLoopF, if_pos hlt]
        simp only [htxF]
        simp [symSeqIdx, hlt]
    · have hid : idx = len := by omega
      refine ⟨0, by omega, ?_, fun k hk => by omega, fun hlt2 => by omega⟩
      rw [frameLoopF, if_neg hlt]
      simp [symSeqIdx, hid]

/-- C6: in FRAME, each `Process` call pushes frame bytes from the cursor
through the symbol encoder, advancing the cursor exactly once per accepted
symbol and stopping at the first FIFO rejection, so the next call resumes at
the rejected byte and no byte is skipped; with the cursor at or past the
frame length, the cursor is reset and the state becomes POSTAMBLE. -/
theorem radio_C6 :
    ∀ (inst : RADIO_Instance) (env : RadioEnv),
      inst.state = RADIO_State.FRAME →
      (inst.len ≤ inst.idx →
        RADIO_Process inst env =
          ({ inst with state := RADIO_State.POSTAMBLE, idx := 0 }, [])) ∧
      (inst.idx < inst.len →
        ∃ a : Nat,
          inst.idx + a ≤ inst.len ∧
          (RADIO_Process inst env).1 = { inst with idx := inst.idx + a } ∧
          (∀ k, k < a → env.statuses k &&& STATE_S3_FIFO_FULL = 0) ∧
          (inst.idx + a < inst.len →
            env.statuses a &&& STATE_S3_FIFO_FULL ≠ 0) ∧
          (RADIO_Process inst env).2 =
            symSeqIdx inst.frame inst.idx a ++
              (if inst.idx + a < inst.len then
                 [RadioEvent.write ADDR_FIFOCTRL
                    (iq (inst.frame.getD (inst.idx + a) 0) >>> 8)]
               else [])) := by
  intro inst env h
  refine ⟨fun h1 => step_FRAME_done inst env h h1, fun h1 => ?_⟩
  obtain ⟨a, ha1, ha2, ha3, ha4⟩ :=
    frameLoopF_char (inst.len - inst.idx) inst.frame inst.len inst.idx
      env.statuses (le_of_lt h1) (by omega)
  have hp := step_FRAME_go inst env h h1
  have hl : frameLoop inst.frame inst.len inst.idx env.statuses =
      (inst.idx + a,
       symSeqIdx inst.frame inst.idx a ++
         (if inst.idx + a < inst.len then
            [RadioEvent.write ADDR_FIFOCTRL
               (iq (inst.frame.getD (inst.idx + a) 0) >>> 8)]
          else [])) := by
    rw [frameLoop]
    exact ha2
  refine ⟨a, ha1, ?_, ha3, ha4, ?_⟩
  · rw [hp, hl]
  · rw [hp, hl]

/-- C6 witness: the cursor-exhausted transition applied at a concrete
instance. -/
theorem radio_C6_witness :
    RADIO_Process ⟨RADIO_State.FRAME, [1, 0], 2, 2, 0⟩ ⟨9, fun _ => 0, 0⟩ =
      (⟨RADIO_State.POSTAMBLE, [1, 0], 2, 0, 0⟩, []) :=
  (radio_C6 ⟨RADIO_State.FRAME, [1, 0], 2, 2, 0⟩ ⟨9, fun _ => 0, 0⟩ rfl).1
    (by decide)

/-- The FRAME loop under a FIFO that never reports full: all remaining
bytes are accepted in one call and the cursor lands on `len`. -/
theorem frameLoopF_nf :
    ∀ (fuel : Nat) (frame : List Nat) (len idx : Nat) (st : Nat → Nat),
      (∀ k, st k &&& STATE_S3_FIFO_FULL = 0) →
      idx ≤ len → len ≤ idx + fuel →
      frameLoopF frame len st idx fuel = (len, symSeqIdx frame idx (len - idx)) := by
  intro fuel
  induction fuel with
  | zero =>
    intro frame len idx st hst h1 h2
    have hid : idx = len := by omega
    simp [frameLoopF, symSeqIdx, hid]
  | succ fuel ih =>
    intro frame len idx st hst h1 h2
    by_cases hlt : idx < len
    · have htxT : ∀ d : Nat, Transmit10 d (st 0) = (true, symWrites d) :=
        fun d => by simp [Transmit10, symWrites, hst 0]
      have hr := ih frame len (idx + 1) (fun k => st (k + 1))
        (fun k => hst (k + 1)) (by omega) (by omega)
      rw [frameLoopF, if_pos hlt]
      simp only [htxT]
      have hn : len - idx = (len - (idx + 1)) + 1 := by omega
      simp [hr, hn, symSeqIdx]
    · have hid : idx = len := by omega
      rw [frameLoopF, if_neg hlt]
      simp [symSeqIdx, hid]

/-- `List.getD` at the length of a prefix reads the head of the rest. -/
theorem getD_append_len :
    ∀ (pre : List Nat) (b : Nat) (l : List Nat),
      (pre ++ b :: l).getD pre.length 0 = b := by
  intro pre
  induction pre with
  | nil => intro b l; rfl
  | cons a pre ih => intro b l; simpa using ih b l

/-- Reading a full prefix through `symSeqIdx` gives exactly the symbol
writes of the prefix bytes, in order. -/
theorem symSeqIdx_pre :
    ∀ (data pre rest : List Nat),
      symSeqIdx (pre ++ data ++ rest) pre.length data.length = symSeq data := by
  intro data
  induction data with
  | nil => intro pre rest; rfl
  | cons b bs ih =>
    intro pre rest
    show symWrites ((pre ++ (b :: bs) ++ rest).getD pre.length 0) ++
        symSeqIdx (pre ++ (b :: bs) ++ rest) (pre.length + 1) bs.length =
      symWrites b ++ symSeq bs
    have h1 : pre ++ (b :: bs) ++ rest = pre ++ b :: (bs ++ rest) := by
      simp [List.append_assoc]
    have h2 : pre ++ (b :: bs) ++ rest = (pre ++ [b]) ++ bs ++ rest := by
      simp [List.append_assoc]
    have h3 : pre.length + 1 = (pre ++ [b]).length := by simp
    rw [h1, getD_append_len pre b (bs ++ rest), ← h1, h2, h3, ih (pre ++ [b]) rest]

/-- The symbol writes of a frame buffer holding `data` as a prefix. -/
theorem symSeqIdx_zero (data rest : List Nat) :
    symSeqIdx (data ++ rest) 0 data.length = symSeq data := by
  have := symSeqIdx_pre data [] rest
  simpa using this

/-- The full-frame loop under a never-full FIFO on a buffer whose prefix is
the frame. -/
theorem frameLoop_nf (data rest : List Nat) :
    frameLoop (data ++ rest) data.length 0 (fun _ => 0) =
      (data.length, symSeq data) := by
  rw [frameLoop]
  rw [frameLoopF_nf (data.length - 0) (data ++ rest) data.length 0
    (fun _ => 0) (fun k => by simp) (Nat.zero_le _) (by omega)]
  simp [symSeqIdx_zero]

/-- A polling environment with the FIFO never full and the ranging register
reading zero. -/
def nfEnv (t : Nat) : RadioEnv := ⟨t, fun _ => 0, 0⟩

/-- An 8-poll schedule driving one whole transmission from START_TX back to
IDLE under an advancing clock: warm-up, full-tx, one preamble write, the
preamble deadline, the frame push, the frame-exhausted transition and the
two postamble ticks. -/
def txSchedule (t : Nat) : List RadioEnv :=
  [ nfEnv (t + 1), nfEnv (t + 3), nfEnv (t + 4), nfEnv (t + 163),
    nfEnv (t + 164), nfEnv (t + 165), nfEnv (t + 166), nfEnv (t + 167) ]

/-- Unfolding one poll of `runProcess` along a known `Process` step. -/
theorem runProcess_cons (inst : RADIO_Instance) (e : RadioEnv)
    (es : List RadioEnv) (i2 : RADIO_Instance) (tr : List RadioEvent)
    (h : RADIO_Process inst e = (i2, tr)) :
    runProcess inst (e :: es) =
      ((runProcess i2 es).1, tr ++ (runProcess i2 es).2) := by
  simp [runProcess, h]

/-- C3 (amended): for any frame with `1 ≤ length < cap`, `SetFrame` from
IDLE (with `nextAR = 0`, the value CONFIGURE forces) followed by the polls
of `txSchedule` under a never-full FIFO returns the instance to IDLE, and
the bus trace is: the warm-up and full-tx power writes, the raw preamble
byte write, then exactly one 10-bit symbol per frame byte in order, then
the terminating zero symbol pushed twice (once per postamble tick), ending
with the standby power write. -/
theorem radio_C3 :
    ∀ (data f0 : List Nat) (l0 ix0 cap t : Nat),
      0 < data.length → data.length < cap →
      runProcess
        (RADIO_SetFrame cap ⟨RADIO_State.IDLE, f0, l0, ix0, 0⟩
          (some data) data.length)
        (txSchedule t) =
      (⟨RADIO_State.IDLE, data ++ f0.drop data.length, data.length, 0, 0⟩,
       [RadioEvent.write ADDR_PWRMODE PWRMODE_SYNTHTX,
        RadioEvent.write ADDR_PWRMODE PWRMODE_FULLTX,
        RadioEvent.write ADDR_FIFODATA PREAMBLE_MSG] ++
         symSeq data ++ symWrites 0 ++ symWrites 0 ++
         [RadioEvent.write ADDR_PWRMODE PWRMODE_STANDBY]) := by
  intro data f0 l0 ix0 cap t hl hcap
  have hSD : STARTUP_DELAY = 1 := rfl
  have hPD : PREAMBLE_DURATION = 160 := rfl
  have hsf : RADIO_SetFrame cap ⟨RADIO_State.IDLE, f0, l0, ix0, 0⟩
      (some data) data.length =
      ⟨RADIO_State.START_TX, data ++ f0.drop data.length, data.length, 0, 0⟩ := by
    have hne : data.length ≠ 0 := by omega
    simp [RADIO_SetFrame, hne, hcap]
  set F := data ++ f0.drop data.length with hF
  set L := data.length with hL
  have st1 : RADIO_Process ⟨RADIO_State.START_TX, F, L, 0, 0⟩ (nfEnv (t + 1)) =
      (⟨RADIO_State.WAIT_TX, F, L, t + 1 + STARTUP_DELAY, 0⟩,
       [RadioEvent.write ADDR_PWRMODE PWRMODE_SYNTHTX]) :=
    step_START_TX _ _ rfl
  have st2 : RADIO_Process ⟨RADIO_State.WAIT_TX, F, L, t + 1 + STARTUP_DELAY, 0⟩
      (nfEnv (t + 3)) =
      (⟨RADIO_State.PREAMBLE, F, L, t + 3 + PREAMBLE_DURATION, 0⟩,
       [RadioEvent.write ADDR_PWRMODE PWRMODE_FULLTX]) :=
    step_WAIT_TX_tx _ _ rfl (by simp [nfEnv]; omega) (by simp [nfEnv])
  have st3 : RADIO_Process ⟨RADIO_State.PREAMBLE, F, L, t + 3 + PREAMBLE_DURATION, 0⟩
      (nfEnv (t + 4)) =
      (⟨RADIO_State.PREAMBLE, F, L, t + 3 + PREAMBLE_DURATION, 0⟩,
       [RadioEvent.write ADDR_FIFODATA PREAMBLE_MSG]) :=
    step_PREAMBLE_send _ _ rfl (by simp [nfEnv]; omega)
  have st4 : RADIO_Process ⟨RADIO_State.PREAMBLE, F, L, t + 3 + PREAMBLE_DURATION, 0⟩
      (nfEnv (t + 163)) =
      (⟨RADIO_State.FRAME, F, L, 0, 0⟩, []) :=
    step_PREAMBLE_done _ _ rfl (by simp [nfEnv]; omega)
  have st5 : RADIO_Process ⟨RADIO_State.FRAME, F, L, 0, 0⟩ (nfEnv (t + 164)) =
      (⟨RADIO_State.FRAME, F, L, L, 0⟩, symSeq data) := by
    rw [step_FRAME_go ⟨RADIO_State.FRAME, F, L, 0, 0⟩ (nfEnv (t + 164)) rfl hl]
    have hfl : frameLoop F L 0 (nfEnv (t + 164)).statuses = (L, symSeq data) := by
      rw [hF, hL]
      exact frameLoop_nf data (f0.drop data.length)
    rw [hfl]
  have st6 : RADIO_Process ⟨RADIO_State.FRAME, F, L, L, 0⟩ (nfEnv (t + 165)) =
      (⟨RADIO_State.POSTAMBLE, F, L, 0, 0⟩, []) :=
    step_FRAME_done _ _ rfl (Nat.le_refl L)
  have st7 : RADIO_Process ⟨RADIO_State.POSTAMBLE, F, L, 0, 0⟩ (nfEnv (t + 166)) =
      (⟨RADIO_State.POSTAMBLE, F, L, 1, 0⟩, symWrites 0) := by
    rw [step_POST1 _ _ rfl rfl]
    simp [Transmit10, symWrites, iq, nfEnv]
  have st8 : RADIO_Process ⟨RADIO_State.POSTAMBLE, F, L, 1, 0⟩ (nfEnv (t + 167)) =
      (⟨RADIO_State.IDLE, F, L, 0, 0⟩,
       symWrites 0 ++ [RadioEvent.write ADDR_PWRMODE PWRMODE_STANDBY]) := by
    rw [step_POST2 _ _ rfl (by simp)]
    simp [Transmit10, symWrites, iq, nfEnv]
  rw [hsf]
  simp only [txSchedule]
  rw [runProcess_cons _ _ _ _ _ st1, runProcess_cons _ _ _ _ _ st2,
      runProcess_cons _ _ _ _ _ st3, runProcess_cons _ _ _ _ _ st4,
      runProcess_cons _ _ _ _ _ st5, runProcess_cons _ _ _ _ _ st6,
      runProcess_cons _ _ _ _ _ st7, runProcess_cons _ _ _ _ _ st8]
  simp [runProcess, List.append_assoc]

/-- C3 witness: the amended run at a concrete 2-byte frame, concrete buffer
and base tick 0. -/
theorem radio_C3_witness :
    runProcess
      (RADIO_SetFrame 3 ⟨RADIO_State.IDLE, [5, 5, 5], 0, 9, 0⟩ (some [1, 0]) 2)
      (txSchedule 0) =
    (⟨RADIO_State.IDLE, [1, 0, 5], 2, 0, 0⟩,
     [RadioEvent.write ADDR_PWRMODE PWRMODE_SYNTHTX,
      RadioEvent.write ADDR_PWRMODE PWRMODE_FULLTX,
      RadioEvent.write ADDR_FIFODATA PREAMBLE_MSG] ++
       symSeq [1, 0] ++ symWrites 0 ++ symWrites 0 ++
       [RadioEvent.write ADDR_PWRMODE PWRMODE_STANDBY]) := by
  have h := radio_C3 [1, 0] [5, 5, 5] 0 9 3 0 (by decide) (by decide)
  simpa using h

/-- C3 counterexample: for a 1-byte frame pushed through a complete
transmission, the portion of the bus trace pushed through the symbol encoder
consists of 3 FIFO-control writes (1 for the single frame byte and 2 for the
twice-pushed postamble symbol), not the 8 · 1 + 1 = 9 the claim's
"8 symbols per byte plus one terminating symbol" would require. -/
theorem radio_C3_cex :
    countCtrl (runProcess
        (RADIO_SetFrame 2 ⟨RADIO_State.IDLE, [0, 0], 0, 0, 0⟩ (some [1]) 1)
        (txSchedule 0)).2 = 3 ∧
    (runProcess
        (RADIO_SetFrame 2 ⟨RADIO_State.IDLE, [0, 0], 0, 0, 0⟩ (some [1]) 1)
        (txSchedule 0)).1.state = RADIO_State.IDLE ∧
    (3 : Nat) ≠ 8 * 1 + 1 :=
  ⟨by decide, by decide, by decide⟩
